import Mathlib

/-!
Shallow embedding of the lookup engine in src/schema.py: the WebDriver pool
(get_driver / release_driver), the cached check_scheme_id, check_with_retry,
and parse_eligibility_text, together with theorems settling the spec claims.
-/

namespace GmsPrimum

/-- Python whitespace predicate used by str.strip with no arguments. -/
def isPyWs (c : Char) : Bool :=
  c = ' ' || c = '\t' || c = '\n' || c = '\r' || c = Char.ofNat 11 || c = Char.ofNat 12

/-- Model of Python str.strip with no arguments: drop whitespace at both ends. -/
def pyStrip (s : String) : String :=
  String.mk (((s.data.dropWhile isPyWs).reverse.dropWhile isPyWs).reverse)

/-- Model of Python str.split on one separator character, keeping empty pieces. -/
def pySplitCharAux (c : Char) : List Char → List String
  | [] => [""]
  | x :: xs =>
    match pySplitCharAux c xs with
    | [] => [String.mk [x]]
    | h :: t => if x = c then "" :: h :: t else String.mk (x :: h.data) :: t

/-- Model of Python s.split(c): at least one piece, empty pieces kept. -/
def pySplitChar (c : Char) (s : String) : List String := pySplitCharAux c s.data

/-- Helper for pySplitOnce: accumulate characters until the separator. -/
def pySplitOnceAux (c : Char) : List Char → List Char → List String
  | acc, [] => [String.mk acc.reverse]
  | acc, x :: xs =>
    if x = c then [String.mk acc.reverse, String.mk xs] else pySplitOnceAux c (x :: acc) xs

/-- Model of Python s.split(c, 1): split at the first separator only. -/
def pySplitOnce (c : Char) (s : String) : List String := pySplitOnceAux c [] s.data

/-- Model of the Python test `c in s` for a single character. -/
def pyContainsChar (s : String) (c : Char) : Bool := s.data.any (fun x => x = c)

/-- Model of Python s.endswith(c) for a single character. -/
def pyEndsWithChar (s : String) (c : Char) : Bool :=
  match s.data.getLast? with
  | some x => x = c
  | none => false

/-- Boolean test that one character list begins with another. -/
def isPref : List Char → List Char → Bool
  | [], _ => true
  | _ :: _, [] => false
  | a :: as, b :: bs => a = b && isPref as bs

/-- Helper for hasSub: check the needle at every suffix of the hay. -/
def hasSubAux (needle : List Char) : List Char → Bool
  | [] => isPref needle []
  | x :: xs => isPref needle (x :: xs) || hasSubAux needle xs

/-- Model of the Python substring test `needle in hay`. -/
def hasSub (hay needle : String) : Bool := hasSubAux needle.data hay.data

/-! Response parser: parse_eligibility_text (src/schema.py lines 339-396). -/

/-- The recognized field names (keys of expected_fields in the source). -/
def expectedKeys : List String :=
  ["Eligibility", "Scheme Id", "Scheme Type", "Doctor Number",
   "Date of Birth", "Eligibility Start Date", "Eligibility End Date"]

/-- State of the parsing loop: current_key and the data dict (values may be None). -/
structure LoopSt where
  currentKey : Option String
  data : List (String × Option String)
deriving DecidableEq

/-- Model of Python dict lookup `d[k]` as an option (outer none means key absent). -/
def dictGet : List (String × Option String) → String → Option (Option String)
  | [], _ => none
  | (a, b) :: t, k => if a = k then some b else dictGet t k

/-- Model of Python dict assignment `d[k] = v` (update in place or append). -/
def dictSet : List (String × Option String) → String → Option String → List (String × Option String)
  | [], k, v => [(k, v)]
  | (a, b) :: t, k, v => if a = k then (a, v) :: t else (a, b) :: dictSet t k v

/-- One iteration of the parsing loop over a raw line, mirroring the source.
The error case models the IndexError that parts[0] would raise on an empty
split result, which the surrounding try turns into the rawText fallback. -/
def loopStep (st : LoopSt) (rawLine : String) : Except Unit LoopSt :=
  let line := pyStrip rawLine
  if line = "Eligibility Details" then .ok st
  else if pyContainsChar line ':' then
    match pySplitOnce ':' line with
    | [] => .error ()
    | p0 :: rest =>
      let ck := pyStrip p0
      let value : Option String :=
        match rest with
        | v :: _ => some (pyStrip v)
        | [] => none
      if expectedKeys.contains ck then .ok ⟨some ck, dictSet st.data ck value⟩
      else .ok ⟨some ck, st.data⟩
  else
    match st.currentKey with
    | some ck =>
      if ck ≠ "" && !(pyEndsWithChar line ':') then
        match dictGet st.data ck with
        | some (some s) =>
          if s ≠ "" then .ok ⟨st.currentKey, dictSet st.data ck (some (s ++ " " ++ line))⟩
          else .ok ⟨st.currentKey, dictSet st.data ck (some line)⟩
        | _ => .ok ⟨st.currentKey, dictSet st.data ck (some line)⟩
      else .ok st
    | none => .ok st

/-- Run the parsing loop over all lines. -/
def runLoop : LoopSt → List String → Except Unit LoopSt
  | st, [] => .ok st
  | st, l :: ls =>
    match loopStep st l with
    | .ok st2 => runLoop st2 ls
    | .error e => .error e

/-- The line list the source builds: text.strip().split(chr(10)). -/
def pyLines (text : String) : List String := pySplitChar '\n' (pyStrip text)

/-- Structured output record with the seven canonical fields. -/
structure ParsedFields where
  eligibility : Option String
  schemeId : Option String
  schemeType : Option String
  doctorNumber : Option String
  dateOfBirth : Option String
  eligibilityStartDate : Option String
  eligibilityEndDate : Option String
deriving DecidableEq

/-- Result of parse_eligibility_text: structured fields, or the rawText fallback. -/
inductive ParseOut
  | fields (f : ParsedFields)
  | rawText (t : String)
deriving DecidableEq

/-- Build the camelCase output record from the data dict (data.get flattens None). -/
def buildFields (d : List (String × Option String)) : ParsedFields :=
  ⟨(dictGet d "Eligibility").join, (dictGet d "Scheme Id").join,
   (dictGet d "Scheme Type").join, (dictGet d "Doctor Number").join,
   (dictGet d "Date of Birth").join, (dictGet d "Eligibility Start Date").join,
   (dictGet d "Eligibility End Date").join⟩

/-- Model of parse_eligibility_text (src/schema.py lines 339-396). -/
def parse_eligibility_text (text : String) : ParseOut :=
  match runLoop ⟨none, []⟩ (pyLines text) with
  | .ok st => .fields (buildFields st.data)
  | .error _ => .rawText text

/-! WebDriver pool: WebDriverPool.get_driver / release_driver
(src/schema.py lines 97-144). Drivers are identified by creation number. -/

/-- MAX_POOL_SIZE in the source. -/
def MAX_POOL_SIZE : Nat := 5

/-- Pool state: the _drivers list, a fresh-id counter counting creations,
and a counter of drivers destroyed by driver.quit in release_driver. -/
structure PoolSt where
  drivers : List Nat
  nextId : Nat
  destroyed : Nat
deriving DecidableEq

/-- The empty initial pool. -/
def pool0 : PoolSt := ⟨[], 0, 0⟩

/-- Model of WebDriverPool.get_driver. createOk says whether the webdriver
constructor succeeds when a creation is attempted (on failure the source
returns None even if idle drivers exist). When the list is at capacity the
first driver is popped and returned. -/
def get_driver (createOk : Bool) (st : PoolSt) : Option Nat × PoolSt :=
  if st.drivers.length < MAX_POOL_SIZE then
    if createOk then
      (some st.nextId, ⟨st.drivers ++ [st.nextId], st.nextId + 1, st.destroyed⟩)
    else (none, st)
  else
    match st.drivers with
    | [] => (none, st)
    | d :: rest => (some d, ⟨rest, st.nextId, st.destroyed⟩)

/-- Model of WebDriverPool.release_driver for a non-None driver: re-append
when below capacity, otherwise quit (destroy) the driver. -/
def release_driver (d : Nat) (st : PoolSt) : PoolSt :=
  if st.drivers.length < MAX_POOL_SIZE then ⟨st.drivers ++ [d], st.nextId, st.destroyed⟩
  else ⟨st.drivers, st.nextId, st.destroyed + 1⟩

/-- Apply n consecutive get_driver calls (successful creation), keeping only the pool. -/
def getsN : Nat → PoolSt → PoolSt
  | 0, st => st
  | n + 1, st => getsN n (get_driver true st).2

/-- Number of driver instances in existence: created minus destroyed. -/
def liveDrivers (st : PoolSt) : Nat := st.nextId - st.destroyed

/-! One attempt of check_scheme_id (src/schema.py lines 170-265): the body
behind the lru_cache decorator. The remote interaction is modelled by a
behavior describing what the remote page does on that invocation. -/

/-- What the remote interaction does in one attempt: an exception before
classification, an alert-danger banner with given text, the result card with
given text, or a timeout waiting for the card. -/
inductive Remote
  | interactError
  | errorBanner (text : String)
  | card (text : String)
  | cardTimeout
deriving DecidableEq

/-- Behavior of the environment for one invocation: whether driver creation
succeeds, and what the remote interaction does. -/
structure Behavior where
  createOk : Bool
  remote : Remote
deriving DecidableEq

/-- Result dict returned by check_scheme_id, by shape: the driver-unavailable
dict has only status and error keys (no code), known errors carry
status, code, title and message keys, and success carries the raw text. -/
inductive CheckResult
  | driverUnavailable (error : String)
  | knownError (code title message : String)
  | success (result : String)
deriving DecidableEq

/-- The not-found message built with the scheme id. -/
def notFoundMsg (id : String) : String :=
  "The client identifier \x27" ++ id ++ "\x27 was not found on any scheme."

/-- The structural marker tested on the result card text. -/
def markerStr : String := "Eligibility Details"

/-- Classification of the banner branch: error text stripped and split on
newlines, first line as title, second line or default as message. -/
def bannerResult (t id : String) : CheckResult :=
  let ls := pySplitChar '\n' (pyStrip t)
  .knownError "PATIENT_NOT_FOUND" (ls.headD "Patient Not Found") (ls.getD 1 (notFoundMsg id))

/-- Outcome classification of one interaction, mirroring the nested
try blocks in check_scheme_id: an interaction exception is caught by the
outer handler (SYSTEM_ERROR), a banner gives PATIENT_NOT_FOUND, the card is
a success only when non-empty and containing the marker, and a card timeout
gives NO_RESPONSE. -/
def check_classify (rem : Remote) (id : String) : CheckResult :=
  match rem with
  | .interactError =>
    .knownError "SYSTEM_ERROR" "System Error"
      "Unable to process the scheme ID check. Please try again later."
  | .errorBanner t => bannerResult t id
  | .card t =>
    if t ≠ "" && hasSub t markerStr then .success t
    else .knownError "PATIENT_NOT_FOUND" "Patient Not Found" (notFoundMsg id)
  | .cardTimeout =>
    .knownError "NO_RESPONSE" "System Error" "Unable to retrieve eligibility information"

/-- One uncached run of check_scheme_id: obtain a driver (returning the
code-less error dict if that fails), classify the interaction, and always
release the driver in the finally block. -/
def check_body (b : Behavior) (id : String) (p : PoolSt) : CheckResult × PoolSt :=
  match get_driver b.createOk p with
  | (none, p2) => (.driverUnavailable "Unable to initialize WebDriver", p2)
  | (some d, p2) => (check_classify b.remote id, release_driver d p2)

/-! The lru_cache(maxsize=100) layer around check_scheme_id. -/

/-- Engine state: the shared pool, the lru cache (most recent first), and a
count of invocations of the underlying function body. -/
structure Engine where
  pool : PoolSt
  cache : List (String × CheckResult)
  calls : Nat
deriving DecidableEq

/-- The empty initial engine state. -/
def engine0 : Engine := ⟨pool0, [], 0⟩

/-- Lookup in the cache list. -/
def cacheLookup : List (String × CheckResult) → String → Option CheckResult
  | [], _ => none
  | (a, b) :: t, k => if a = k then some b else cacheLookup t k

/-- Remove the first entry with the given key. -/
def eraseKey : List (String × CheckResult) → String → List (String × CheckResult)
  | [], _ => []
  | (a, b) :: t, k => if a = k then t else (a, b) :: eraseKey t k

/-- Model of the cached check_scheme_id: a hit returns the stored dict and
refreshes its recency without running the body; a miss runs the body (the
behavior of invocation number e.calls), stores the returned dict whatever its
kind, and evicts the least recently used entry beyond 100 entries. -/
def check_scheme_id (env : Nat → Behavior) (id : String) (e : Engine) : CheckResult × Engine :=
  match cacheLookup e.cache id with
  | some r => (r, ⟨e.pool, (id, r) :: eraseKey e.cache id, e.calls⟩)
  | none =>
    let rp := check_body (env e.calls) id e.pool
    (rp.1, ⟨rp.2, ((id, rp.1) :: e.cache).take 100, e.calls + 1⟩)

/-- Run a sequence of cached lookups, keeping the engine state. -/
def engRun (env : Nat → Behavior) : List String → Engine → Engine
  | [], e => e
  | id :: ids, e => engRun env ids (check_scheme_id env id e).2

/-- Distinct two-letter identifiers for eviction experiments. -/
def idOf (n : Nat) : String :=
  String.mk [Char.ofNat (65 + n / 10), Char.ofNat (65 + n % 10)]

/-! check_with_retry (src/schema.py lines 267-283), over an abstract
per-attempt computation that may raise (modelled with Except). -/

/-- The retry loop from a given attempt index with the given number of loop
iterations left, returning the result (none models falling off the loop,
where the Python function returns None) and the number of invocations of the
per-attempt computation. -/
def retryGo (compute : Nat → Except Unit CheckResult) (id : String) (maxR : Nat) :
    Nat → Nat → Option CheckResult × Nat
  | _, 0 => (none, 0)
  | attempt, r + 1 =>
    match compute attempt with
    | .ok res => (some res, 1)
    | .error _ =>
      if attempt == maxR - 1 then
        (some (.knownError "PATIENT_NOT_FOUND" "Patient Not Found" (notFoundMsg id)), 1)
      else
        let res2 := retryGo compute id maxR (attempt + 1) r
        (res2.1, res2.2 + 1)

/-- Model of check_with_retry: up to max_retries attempts, returning any
result (success or error dict) immediately and retrying only when the
computation raises; on the last attempt a raise yields the PATIENT_NOT_FOUND
dict. Also returns how many times the computation was invoked. -/
def check_with_retry (compute : Nat → Except Unit CheckResult) (id : String)
    (max_retries : Nat := 3) : Option CheckResult × Nat :=
  retryGo compute id max_retries 0 max_retries

/-! Auxiliary definitions used by the claim statements. -/

/-- The recognized key a line would install as current_key: strip the line
and, when it contains a colon, take the stripped portion before the first
colon. -/
def colonKey (rawLine : String) : Option String :=
  let line := pyStrip rawLine
  if pyContainsChar line ':' then
    match pySplitOnce ':' line with
    | [] => none
    | p0 :: _ => some (pyStrip p0)
  else none

/-- Read the output field named by a recognized source key. -/
def fieldByKey (f : ParsedFields) (k : String) : Option String :=
  if k = "Eligibility" then f.eligibility
  else if k = "Scheme Id" then f.schemeId
  else if k = "Scheme Type" then f.schemeType
  else if k = "Doctor Number" then f.doctorNumber
  else if k = "Date of Birth" then f.dateOfBirth
  else if k = "Eligibility Start Date" then f.eligibilityStartDate
  else if k = "Eligibility End Date" then f.eligibilityEndDate
  else none

/-- Invariant carried through the parsing loop: the key k is neither the
current key nor present in the data dict. -/
def noKeyInv (k : String) (st : LoopSt) : Prop :=
  st.currentKey ≠ some k ∧ dictGet st.data k = none

/-- The machine-readable code field of a result dict, when present. -/
def resultCode : CheckResult → Option String
  | .driverUnavailable _ => none
  | .knownError c _ _ => some c
  | .success _ => none

/-- Whether the result dict has status error. -/
def isErrorStatus : CheckResult → Bool
  | .driverUnavailable _ => true
  | .knownError _ _ _ => true
  | .success _ => false

/-- Environment whose every attempt times out waiting for the result card. -/
def envTimeout : Nat → Behavior := fun _ => ⟨true, Remote.cardTimeout⟩

/-- Environment whose every attempt finds a card carrying the marker. -/
def envCard : Nat → Behavior := fun _ => ⟨true, Remote.card markerStr⟩

/-- Engine state after looking up X followed by 100 distinct identifiers,
which evicts the X entry from the size-100 lru cache. -/
def engineAfterEviction : Engine := engRun envCard ("X" :: (List.range 100).map idOf) engine0

/-! Helper lemmas. -/

theorem pySplitOnceAux_ne_nil (c : Char) (acc l : List Char) : pySplitOnceAux c acc l ≠ [] := by
  induction l generalizing acc with
  | nil => simp [pySplitOnceAux]
  | cons x xs ih =>
    unfold pySplitOnceAux
    by_cases hx : x = c
    · simp [hx]
    · rw [if_neg hx]
      exact ih _

theorem pySplitOnce_ne_nil (c : Char) (s : String) : pySplitOnce c s ≠ [] :=
  pySplitOnceAux_ne_nil c [] s.data

theorem dictGet_dictSet_ne (d : List (String × Option String)) (a k : String) (v : Option String)
    (h : a ≠ k) : dictGet (dictSet d a v) k = dictGet d k := by
  induction d with
  | nil => simp [dictSet, dictGet, h]
  | cons p tl ih =>
    obtain ⟨x, y⟩ := p
    by_cases hx : x = a
    · subst hx
      simp [dictSet, dictGet, h]
    · simp only [dictSet, if_neg hx]
      by_cases hk : x = k <;> simp [dictGet, hk, ih]

theorem loopStep_preserves (k : String) (st st2 : LoopSt) (l : String)
    (hline : colonKey l ≠ some k) (hst : noKeyInv k st) (h : loopStep st l = .ok st2) :
    noKeyInv k st2 := by
  simp only [loopStep] at h
  simp only [colonKey] at hline
  by_cases h1 : pyStrip l = "Eligibility Details"
  · rw [if_pos h1] at h
    cases h
    exact hst
  · rw [if_neg h1] at h
    by_cases h2 : pyContainsChar (pyStrip l) ':'
    · rw [if_pos h2] at h
      rw [if_pos h2] at hline
      rcases hsp : pySplitOnce ':' (pyStrip l) with _ | ⟨p0, rest⟩
      · exact absurd hsp (pySplitOnce_ne_nil _ _)
      · rw [hsp] at h hline
        dsimp only at h hline
        have hk : pyStrip p0 ≠ k := fun he => hline (by rw [he])
        by_cases hexp : expectedKeys.contains (pyStrip p0) = true
        · rw [if_pos hexp] at h
          cases h
          exact ⟨fun he => hk (Option.some.inj he), by rw [dictGet_dictSet_ne _ _ _ _ hk]; exact hst.2⟩
        · rw [if_neg hexp] at h
          cases h
          exact ⟨fun he => hk (Option.some.inj he), hst.2⟩
    · rw [if_neg h2] at h
      rcases hck : st.currentKey with _ | ck
      · rw [hck] at h
        dsimp only at h
        cases h
        exact hst
      · rw [hck] at h
        dsimp only at h
        have hkck : ck ≠ k := fun he => hst.1 (by rw [hck, he])
        by_cases hc1 : (decide (ck ≠ "") && !pyEndsWithChar (pyStrip l) ':') = true
        · rw [if_pos hc1] at h
          rcases hdg : dictGet st.data ck with _ | v
          · rw [hdg] at h
            dsimp only at h
            cases h
            exact ⟨fun he => hkck (Option.some.inj he), by rw [dictGet_dictSet_ne _ _ _ _ hkck]; exact hst.2⟩
          · rcases v with _ | s
            · rw [hdg] at h
              dsimp only at h
              cases h
              exact ⟨fun he => hkck (Option.some.inj he), by rw [dictGet_dictSet_ne _ _ _ _ hkck]; exact hst.2⟩
            · rw [hdg] at h
              dsimp only at h
              by_cases hs : s ≠ ""
              · rw [if_pos hs] at h
                cases h
                exact ⟨fun he => hkck (Option.some.inj he), by rw [dictGet_dictSet_ne _ _ _ _ hkck]; exact hst.2⟩
              · rw [if_neg hs] at h
                cases h
                exact ⟨fun he => hkck (Option.some.inj he), by rw [dictGet_dictSet_ne _ _ _ _ hkck]; exact hst.2⟩
        · rw [if_neg hc1] at h
          cases h
          exact hst

theorem runLoop_no_key (k : String) (lines : List String) (st st2 : LoopSt)
    (hl : ∀ l ∈ lines, colonKey l ≠ some k) (hst : noKeyInv k st)
    (h : runLoop st lines = .ok st2) : noKeyInv k st2 := by
  induction lines generalizing st with
  | nil =>
    unfold runLoop at h
    cases h
    exact hst
  | cons l ls ih =>
    unfold runLoop at h
    rcases hm : loopStep st l with e | stm
    · rw [hm] at h
      exact absurd h (by simp)
    · rw [hm] at h
      exact ih stm (fun x hx => hl x (List.mem_cons_of_mem _ hx))
        (loopStep_preserves k st stm l (hl l (List.mem_cons_self _ _)) hst hm) h

theorem fieldByKey_buildFields (d : List (String × Option String)) (k : String)
    (hk : k ∈ expectedKeys) : fieldByKey (buildFields d) k = (dictGet d k).join := by
  simp only [expectedKeys, List.mem_cons, List.not_mem_nil, or_false] at hk
  rcases hk with rfl | rfl | rfl | rfl | rfl | rfl | rfl <;> rfl

theorem loopStep_ok (st : LoopSt) (l : String) : ∃ st2, loopStep st l = Except.ok st2 := by
  simp only [loopStep]
  by_cases h1 : pyStrip l = "Eligibility Details"
  · rw [if_pos h1]
    exact ⟨_, rfl⟩
  · rw [if_neg h1]
    by_cases h2 : pyContainsChar (pyStrip l) ':'
    · rw [if_pos h2]
      rcases hsp : pySplitOnce ':' (pyStrip l) with _ | ⟨p0, rest⟩
      · exact absurd hsp (pySplitOnce_ne_nil _ _)
      · dsimp only
        by_cases hexp : expectedKeys.contains (pyStrip p0) = true
        · rw [if_pos hexp]
          exact ⟨_, rfl⟩
        · rw [if_neg hexp]
          exact ⟨_, rfl⟩
    · rw [if_neg h2]
      rcases hck : st.currentKey with _ | ck
      · exact ⟨_, rfl⟩
      · dsimp only
        by_cases hc1 : (decide (ck ≠ "") && !pyEndsWithChar (pyStrip l) ':') = true
        · rw [if_pos hc1]
          rcases hdg : dictGet st.data ck with _ | v
          · exact ⟨_, rfl⟩
          · rcases v with _ | s
            · exact ⟨_, rfl⟩
            · dsimp only
              by_cases hs : s ≠ ""
              · rw [if_pos hs]
                exact ⟨_, rfl⟩
              · rw [if_neg hs]
                exact ⟨_, rfl⟩
        · rw [if_neg hc1]
          exact ⟨_, rfl⟩

theorem runLoop_ok (lines : List String) (st : LoopSt) : ∃ st2, runLoop st lines = Except.ok st2 := by
  induction lines generalizing st with
  | nil => exact ⟨st, rfl⟩
  | cons l ls ih =>
    obtain ⟨stm, hm⟩ := loopStep_ok st l
    unfold runLoop
    rw [hm]
    exact ih stm

theorem check_body_fst (b : Behavior) (id : String) (p : PoolSt) :
    (check_body b id p).1 = if (get_driver b.createOk p).1.isSome
      then check_classify b.remote id
      else CheckResult.driverUnavailable "Unable to initialize WebDriver" := by
  unfold check_body
  rcases hg : get_driver b.createOk p with ⟨d, p2⟩
  cases d <;> simp

/-! Claim theorems. -/

/-- Claim C1 (evidence of the code bug): the pool violates Idle/Leased
disjointness. The very first get_driver on an empty pool returns driver 0
while also leaving driver 0 in the idle _drivers list, and after seven
consecutive get_driver calls six distinct drivers exist at once, exceeding
the capacity of five. -/
theorem pool_leased_also_idle_and_overcount :
    (get_driver true pool0).1 = some 0 ∧
    (get_driver true pool0).2.drivers = [0] ∧
    liveDrivers (getsN 7 pool0) = 6 := by decide

/-- Claim C2 (evidence of the code bug): acquire followed by release on the
returned handle does not restore the idle count. From the empty pool (idle
count 0), get_driver creates driver 0 and appends it to the list, and
release_driver appends it again, leaving idle list [0, 0] of length 2. -/
theorem acquire_release_roundtrip_fails :
    pool0.drivers.length = 0 ∧
    (release_driver 0 (get_driver true pool0).2).drivers = [0, 0] ∧
    (release_driver 0 (get_driver true pool0).2).drivers.length = 2 := by decide

/-- Claim C3 counterexample: an attempt that times out (a fault in the
claim's taxonomy) becomes a cached entry. After one lookup of A under an
always-timeout environment, a second lookup of A returns the stored
NO_RESPONSE dict from the cache and the body invocation count stays at 1,
so no fresh computation is performed. -/
theorem timeout_fault_is_cached :
    (check_scheme_id envTimeout "A" (check_scheme_id envTimeout "A" engine0).2).1
      = CheckResult.knownError "NO_RESPONSE" "System Error"
          "Unable to retrieve eligibility information" ∧
    (check_scheme_id envTimeout "A" (check_scheme_id envTimeout "A" engine0).2).2.calls = 1 := by
  decide

/-- Claim C3 amended: on a cache miss every returned outcome of the body is
stored under the identifier, whatever its kind, because check_scheme_id
converts all faults into returned error dicts and no exception escapes to
bypass the lru cache. -/
theorem miss_stores_every_outcome (env : Nat → Behavior) (id : String) (e : Engine)
    (h : cacheLookup e.cache id = none) :
    (check_scheme_id env id e).2.cache
      = ((id, (check_body (env e.calls) id e.pool).1) :: e.cache).take 100 ∧
    (check_scheme_id env id e).2.calls = e.calls + 1 := by
  simp [check_scheme_id, h]

/-- Claim C3 amended, witness at a concrete timeout environment. -/
theorem miss_stores_every_outcome_w :
    (check_scheme_id envTimeout "A" engine0).2.cache
      = [("A", CheckResult.knownError "NO_RESPONSE" "System Error"
          "Unable to retrieve eligibility information")] ∧
    (check_scheme_id envTimeout "A" engine0).2.calls = 1 :=
  miss_stores_every_outcome envTimeout "A" engine0 (by decide)

set_option maxRecDepth 100000 in
/-- Claim C4 counterexample: after the first completed lookup of X, looking
up 100 distinct other identifiers evicts X from the size-100 lru cache, and
the next lookup of X invokes the body again: the invocation count rises
from 101 to 102 instead of staying put. -/
theorem eviction_recomputes :
    engineAfterEviction.calls = 101 ∧
    cacheLookup engineAfterEviction.cache "X" = none ∧
    (check_scheme_id envCard "X" engineAfterEviction).2.calls = 102 := by decide

/-- Claim C4 amended: while the identifier is still present in the cache, a
lookup returns the identical stored result without invoking the body and
without touching the pool. -/
theorem cache_hit_no_recompute (env : Nat → Behavior) (id : String) (e : Engine)
    (r : CheckResult) (h : cacheLookup e.cache id = some r) :
    (check_scheme_id env id e).1 = r ∧
    (check_scheme_id env id e).2.calls = e.calls ∧
    (check_scheme_id env id e).2.pool = e.pool := by
  simp [check_scheme_id, h]

/-- Claim C4 amended, witness on a concrete engine state with a stored entry. -/
theorem cache_hit_no_recompute_w :
    (check_scheme_id envCard "A" ⟨pool0, [("A", CheckResult.success "t")], 5⟩).1
      = CheckResult.success "t" ∧
    (check_scheme_id envCard "A" ⟨pool0, [("A", CheckResult.success "t")], 5⟩).2.calls = 5 ∧
    (check_scheme_id envCard "A" ⟨pool0, [("A", CheckResult.success "t")], 5⟩).2.pool = pool0 :=
  cache_hit_no_recompute envCard "A" ⟨pool0, [("A", CheckResult.success "t")], 5⟩
    (CheckResult.success "t") (by decide)

/-- Claim C5: a per-attempt computation that raises on every invocation,
with max_retries 3, is invoked exactly 3 times and check_with_retry returns
the PATIENT_NOT_FOUND dict. -/
theorem retry_exhaustion_three (id : String) :
    check_with_retry (fun _ => .error ()) id 3
      = (some (CheckResult.knownError "PATIENT_NOT_FOUND" "Patient Not Found"
          (notFoundMsg id)), 3) := rfl

/-- Claim C6: when the result card text does not contain the literal marker
Eligibility Details, one attempt classifies the outcome as the
PATIENT_NOT_FOUND known error, never as a success. -/
theorem no_marker_gives_patient_not_found (b : Behavior) (id : String) (p : PoolSt) (t : String)
    (hc : b.createOk = true) (hr : b.remote = Remote.card t) (hm : hasSub t markerStr = false) :
    (check_body b id p).1
      = CheckResult.knownError "PATIENT_NOT_FOUND" "Patient Not Found" (notFoundMsg id) ∧
    ∀ s, (check_body b id p).1 ≠ CheckResult.success s := by
  have hmain : (check_body b id p).1
      = CheckResult.knownError "PATIENT_NOT_FOUND" "Patient Not Found" (notFoundMsg id) := by
    rw [check_body_fst, hc, hr]
    by_cases hg : (get_driver true p).1.isSome
    · rw [if_pos hg]
      dsimp only [check_classify]
      simp [hm]
    · exfalso
      unfold get_driver at hg
      by_cases hl : p.drivers.length < MAX_POOL_SIZE
      · rw [if_pos hl] at hg
        simp at hg
      · rw [if_neg hl] at hg
        rcases hd : p.drivers with _ | ⟨d, rest⟩
        · rw [hd] at hl
          exact hl (by simp [MAX_POOL_SIZE])
        · rw [hd] at hg
          simp at hg
  exact ⟨hmain, fun s hs => by rw [hmain] at hs; exact CheckResult.noConfusion hs⟩

/-- Claim C6, witness on a marker-free card text. -/
theorem no_marker_gives_patient_not_found_w :
    (check_body ⟨true, Remote.card "no results shown"⟩ "Z" pool0).1
      = CheckResult.knownError "PATIENT_NOT_FOUND" "Patient Not Found" (notFoundMsg "Z") ∧
    ∀ s, (check_body ⟨true, Remote.card "no results shown"⟩ "Z" pool0).1
      ≠ CheckResult.success s :=
  no_marker_gives_patient_not_found ⟨true, Remote.card "no results shown"⟩ "Z" pool0
    "no results shown" rfl rfl (by decide)

/-- Claim C7 counterexample: a key line whose portion after the first colon
is empty and has no continuation line yields the empty string in the output,
not null: parsing the single line Scheme Id followed by a colon gives
schemeId bound to the empty string. -/
theorem empty_colon_value_is_empty_string :
    parse_eligibility_text "Scheme Id:"
      = ParseOut.fields ⟨none, some "", none, none, none, none, none⟩ := by decide

/-- Claim C7 amended: a recognized field named by no key line of the input
(no line whose stripped portion before the first colon equals the field key)
is null in the output. -/
theorem unmentioned_field_is_null (s k : String) (f : ParsedFields)
    (hk : k ∈ expectedKeys)
    (hno : ∀ l ∈ pyLines s, colonKey l ≠ some k)
    (hp : parse_eligibility_text s = ParseOut.fields f) :
    fieldByKey f k = none := by
  unfold parse_eligibility_text at hp
  rcases hrun : runLoop ⟨none, []⟩ (pyLines s) with e | st
  · rw [hrun] at hp
    exact ParseOut.noConfusion hp
  · rw [hrun] at hp
    have hf : f = buildFields st.data := by
      have := ParseOut.fields.inj hp
      exact this.symm
    have hinv := runLoop_no_key k (pyLines s) ⟨none, []⟩ st hno
      ⟨fun he => Option.noConfusion he, rfl⟩ hrun
    subst hf
    rw [fieldByKey_buildFields st.data k hk, hinv.2]
    rfl

/-- Claim C7 amended, witness: an input mentioning only Doctor Number leaves
Scheme Id null. -/
theorem unmentioned_field_is_null_w :
    fieldByKey ⟨none, none, none, some "D1", none, none, none⟩ "Scheme Id" = none :=
  unmentioned_field_is_null "Doctor Number: D1" "Scheme Id"
    ⟨none, none, none, some "D1", none, none, none⟩ (by decide) (by decide) (by decide)

/-- Claim C8: the worked example. Parsing the three-line text yields exactly
eligibility Yes, schemeId 12345, doctorNumber D1 and the other four fields
null. -/
theorem parse_worked_example :
    parse_eligibility_text "Eligibility: Yes\nScheme Id: 12345\nDoctor Number: D1\n"
      = ParseOut.fields ⟨some "Yes", some "12345", none, some "D1", none, none, none⟩ := by
  decide

/-- Claim C9 counterexample: the driver-unavailable failure path returns an
error dict with no machine-readable code field at all. -/
theorem driver_unavailable_lacks_code :
    isErrorStatus (check_body ⟨false, Remote.cardTimeout⟩ "A" pool0).1 = true ∧
    resultCode (check_body ⟨false, Remote.cardTimeout⟩ "A" pool0).1 = none ∧
    (check_body ⟨false, Remote.cardTimeout⟩ "A" pool0).1
      = CheckResult.driverUnavailable "Unable to initialize WebDriver" := by decide

/-- Claim C9 amended: every failure outcome that does carry a code field
(all failure paths except driver unavailability) draws it from the set
PATIENT_NOT_FOUND, NO_RESPONSE, SYSTEM_ERROR, along with title and message. -/
theorem error_codes_in_taxonomy (b : Behavior) (id : String) (p : PoolSt)
    (c t m : String) (h : (check_body b id p).1 = CheckResult.knownError c t m) :
    c = "PATIENT_NOT_FOUND" ∨ c = "NO_RESPONSE" ∨ c = "SYSTEM_ERROR" := by
  rw [check_body_fst] at h
  by_cases hg : (get_driver b.createOk p).1.isSome
  · rw [if_pos hg] at h
    rcases hrem : b.remote with _ | t0 | t0 | _ <;> rw [hrem] at h <;>
      dsimp only [check_classify] at h
    · injection h with h1 h2 h3
      exact Or.inr (Or.inr h1.symm)
    · dsimp only [bannerResult] at h
      injection h with h1 h2 h3
      exact Or.inl h1.symm
    · by_cases hif : (decide (t0 ≠ "") && hasSub t0 markerStr) = true
      · rw [if_pos hif] at h
        exact CheckResult.noConfusion h
      · rw [if_neg hif] at h
        injection h with h1 h2 h3
        exact Or.inl h1.symm
    · injection h with h1 h2 h3
      exact Or.inr (Or.inl h1.symm)
  · rw [if_neg hg] at h
    exact CheckResult.noConfusion h

/-- Claim C9 amended, witness at an interaction-exception attempt. -/
theorem error_codes_in_taxonomy_w :
    "SYSTEM_ERROR" = "PATIENT_NOT_FOUND" ∨ "SYSTEM_ERROR" = "NO_RESPONSE" ∨
    "SYSTEM_ERROR" = "SYSTEM_ERROR" :=
  error_codes_in_taxonomy ⟨true, Remote.interactError⟩ "A" pool0 "SYSTEM_ERROR" "System Error"
    "Unable to process the scheme ID check. Please try again later." (by decide)

/-- Claim C10: on every string input parse_eligibility_text terminates and
returns the structured record with the seven canonical fields; the rawText
fallback branch is unreachable because no step of the loop can fail. -/
theorem parse_total_seven_fields (s : String) :
    ∃ f : ParsedFields, parse_eligibility_text s = ParseOut.fields f := by
  obtain ⟨st2, h⟩ := runLoop_ok (pyLines s) ⟨none, []⟩
  refine ⟨buildFields st2.data, ?_⟩
  unfold parse_eligibility_text
  rw [h]

end GmsPrimum
